import Mathlib

/-!
Shallow embedding of the planorma-rsvp-be RSVP admission engine.

Sources embedded:
* `src/unnamed/part_000` — RSVP routes: user-path upsert (POST /:eventId),
  token-path submit (POST /token/:token), dietary stats
  (GET /event/:eventId/dietary-stats).
* `src/unnamed/part_001` — event routes: eventSchema (zod), create/update.
* `src/src/routes/tokens.ts` — invitee listing (GET /:eventId) and token
  creation with invitation email (POST /:eventId).
* `src/src/models/RSVP.ts`, `src/src/models/Event.ts` — persisted shapes.

Modelling conventions: Mongo ObjectIds are `Nat`; timestamps are `Nat`;
JS numbers appearing in validation are `Rat` (so that the zod `.int()`
check is expressible) or `Int`/`Nat` where the code only sees integers;
optional Mongo fields are `Option`; a collection is a `List` of records and
`findOne` is `List.find?`.  Opaque zod format checks (ISO datetime, email
regex) are carried as boolean fields of the input, since no claim depends
on the format grammar itself.
-/

namespace Planorama

/-- RSVP status enum from the Mongoose schema: going | maybe | not-going. -/
inductive RStatus where
  | going
  | maybe
  | notGoing
deriving DecidableEq, Repr

/-- Dietary preference enum: nonveg | veg | vegan. -/
inductive Diet where
  | nonveg
  | veg
  | vegan
deriving DecidableEq, Repr

/-- An RSVP document (src/src/models/RSVP.ts).  `companions` has schema
default 0 and min 0, so it is always present and non-negative: `Nat`. -/
structure RSVPRec where
  id : Nat
  eventId : Nat
  userId : Option Nat
  tokenId : Option Nat
  status : RStatus
  companions : Nat
  guestName : Option String
  guestEmail : Option String
  dietaryPreference : Option Diet
  companionDietaryPreference : Option Diet
  createdAt : Nat
deriving DecidableEq, Repr

/-- An Event document (src/src/models/Event.ts). -/
structure EventRec where
  id : Nat
  title : String
  description : String
  date : Nat
  location : String
  category : String
  capacity : Int
  hostName : String
  hostMobile : String
  hostEmail : String
  createdBy : Nat
deriving DecidableEq, Repr

/-- An invitation Token document (src/src/models/Token.ts, not under src/ but
its shape is fully determined by its readers and writers in the routes:
eventId, email, optional name, the opaque token string, createdAt). -/
structure TokenRec where
  id : Nat
  eventId : Nat
  email : String
  name : Option String
  token : String
  createdAt : Nat
deriving DecidableEq, Repr

/-- A User document, as consumed by the invitee listing (id and email). -/
structure UserRec where
  id : Nat
  email : String
deriving DecidableEq, Repr

/-- The shared mutable store: the Mongo collections the engine touches. -/
structure Store where
  events : List EventRec
  tokens : List TokenRec
  users : List UserRec
  rsvps : List RSVPRec
deriving DecidableEq, Repr

/-! ### Token-RSVP input validation (tokenRsvpSchema, part_000 lines 16-22)

zod schema:
  status: z.enum(going, not-going)
  companions: z.number().min(0).max(5).default(0)   -- validator, not a clamp
  guestName: optional string
  dietaryPreference / companionDietaryPreference: optional enum
-/

/-- Raw request body for POST /token/:token.  Strings for the enums, since
zod receives untyped JSON; `companions` is an optional number. -/
structure TokenRsvpInput where
  status : String
  companions : Option Int
  guestName : Option String
  dietaryPreference : Option String
  companionDietaryPreference : Option String
deriving DecidableEq, Repr

/-- Validated body after tokenRsvpSchema.parse. -/
structure TokenRsvpValidated where
  status : RStatus
  companions : Nat
  guestName : Option String
  dietaryPreference : Option Diet
  companionDietaryPreference : Option Diet
deriving DecidableEq, Repr

/-- Parse a status string on the token path: only going and not-going
are accepted (z.enum of those two literals). -/
def parseTokenStatus (s : String) : Option RStatus :=
  if s = "going" then some RStatus.going
  else if s = "not-going" then some RStatus.notGoing
  else none

/-- Optional dietary enum: absent is fine (none), a present value must be
one of the three strings nonveg / veg / vegan. -/
def parseOptDiet : Option String → Option (Option Diet)
  | none => some none
  | some s =>
      if s = "nonveg" then some (some Diet.nonveg)
      else if s = "veg" then some (some Diet.veg)
      else if s = "vegan" then some (some Diet.vegan)
      else none

/-- z.number().min(0).max(5).default(0): absent defaults to 0; a present
value is REJECTED (ZodError) unless 0 ≤ c ≤ 5 — zod min/max validate,
they do not clamp. -/
def parseCompanions : Option Int → Option Nat
  | none => some 0
  | some c => if 0 ≤ c ∧ c ≤ 5 then some c.toNat else none

/-- tokenRsvpSchema.parse: succeeds iff every field validates. -/
def parseTokenRsvp (i : TokenRsvpInput) : Option TokenRsvpValidated :=
  match parseTokenStatus i.status, parseCompanions i.companions,
        parseOptDiet i.dietaryPreference, parseOptDiet i.companionDietaryPreference with
  | some st, some c, some d, some cd =>
      some { status := st, companions := c, guestName := i.guestName,
             dietaryPreference := d, companionDietaryPreference := cd }
  | _, _, _, _ => none

/-! ### SubmitTokenRSVP (POST /token/:token, part_000 lines 157-281) -/

/-- Outcome of POST /token/:token, one constructor per response shape. -/
inductive TokenRsvpResult where
  /-- 400, ZodError from tokenRsvpSchema.parse. -/
  | validationError
  /-- 404, no Token document with the given secret. -/
  | invalidToken
  /-- 404, the token points at a deleted event. -/
  | eventNotFound
  /-- 400, an RSVP for (event, token) already exists; echoes its fields. -/
  | alreadyResponded (status : RStatus) (companions : Nat) (respondedAt : Nat)
  /-- 400, capacity would be exceeded; carries availableSpots as computed
  by the handler: capacity - currentAttendees (an Int, NOT floored). -/
  | capacityExceeded (availableSpots : Int)
  /-- 201, created; echoes status, companions and totalAttendees. -/
  | created (status : RStatus) (companions : Nat) (totalAttendees : Nat)
deriving DecidableEq, Repr

/-- HTTP status of each outcome, as sent by the handler. -/
def TokenRsvpResult.httpStatus : TokenRsvpResult → Nat
  | .validationError => 400
  | .invalidToken => 404
  | .eventNotFound => 404
  | .alreadyResponded _ _ _ => 400
  | .capacityExceeded _ => 400
  | .created _ _ _ => 201

/-- currentAttendees (part_000 lines 202-209): over the going RSVPs of the
event, reduce (sum, r) => sum + 1 + (r.companions or 0). -/
def currentAttendees (rsvps : List RSVPRec) (eid : Nat) : Nat :=
  ((rsvps.filter fun r => r.eventId == eid && r.status == RStatus.going).foldl
    (fun sum r => sum + 1 + r.companions) 0)

/-- The guestName stored on the new RSVP: validated.guestName falls back to
tokenDoc.name when absent or empty (JS truthiness of the string). -/
def effectiveGuestName (g : Option String) (tokName : Option String) : Option String :=
  match g with
  | some s => if s == "" then tokName else some s
  | none => tokName

/-- After a successful create, the Token record gets the trimmed
guest-provided name iff guestName is truthy and trims to a non-empty
string (part_000 lines 245-251). -/
def maybeUpdateTokenName (tokens : List TokenRec) (tokId : Nat)
    (g : Option String) : List TokenRec :=
  match g with
  | some s =>
      if s != "" && s.trim != "" then
        tokens.map fun t => if t.id == tokId then { t with name := some s.trim } else t
      else tokens
  | none => tokens

/-- POST /token/:token.  `newId` and `now` stand for the generated ObjectId
and the createdAt timestamp of the new RSVP document. -/
def submitTokenRsvp (s : Store) (tokenStr : String) (i : TokenRsvpInput)
    (newId now : Nat) : TokenRsvpResult × Store :=
  match parseTokenRsvp i with
  | none => (TokenRsvpResult.validationError, s)
  | some v =>
    match s.tokens.find? fun t => t.token == tokenStr with
    | none => (TokenRsvpResult.invalidToken, s)
    | some tok =>
      match s.events.find? fun e => e.id == tok.eventId with
      | none => (TokenRsvpResult.eventNotFound, s)
      | some ev =>
        match s.rsvps.find? fun r => r.tokenId == some tok.id && r.eventId == tok.eventId with
        | some existing =>
            (TokenRsvpResult.alreadyResponded existing.status existing.companions
              existing.createdAt, s)
        | none =>
          let totalAttendees : Nat :=
            if v.status == RStatus.going then 1 + v.companions else 0
          let curr := currentAttendees s.rsvps tok.eventId
          if v.status == RStatus.going ∧ (curr + totalAttendees : Int) > ev.capacity then
            (TokenRsvpResult.capacityExceeded (ev.capacity - curr), s)
          else
            let newRsvp : RSVPRec :=
              { id := newId
                eventId := tok.eventId
                userId := none
                tokenId := some tok.id
                status := v.status
                companions := v.companions
                guestName := effectiveGuestName v.guestName tok.name
                guestEmail := some tok.email
                dietaryPreference := v.dietaryPreference
                companionDietaryPreference := v.companionDietaryPreference
                createdAt := now }
            (TokenRsvpResult.created v.status v.companions totalAttendees,
             { s with rsvps := s.rsvps ++ [newRsvp],
                      tokens := maybeUpdateTokenName s.tokens tok.id v.guestName })

/-! ### SubmitUserRSVP (POST /:eventId, part_000 lines 62-118) -/

/-- rsvpSchema status: all three values are legal on the user path. -/
def parseUserStatus (s : String) : Option RStatus :=
  if s = "going" then some RStatus.going
  else if s = "maybe" then some RStatus.maybe
  else if s = "not-going" then some RStatus.notGoing
  else none

/-- Outcome of POST /:eventId. -/
inductive UserRsvpResult where
  /-- 400, ZodError. -/
  | validationError
  /-- 404, no event with this id owned by the caller. -/
  | notFound
  /-- 200, upserted; echoes the resulting status. -/
  | ok (status : RStatus)
deriving DecidableEq, Repr

/-- The fresh document RSVP.findOneAndUpdate inserts on upsert: the filter
and update fields (eventId, userId, status), plus schema defaults
(companions 0, every optional field absent). -/
def freshUserRsvp (eid uid : Nat) (st : RStatus) (newId now : Nat) : RSVPRec :=
  { id := newId, eventId := eid, userId := some uid, tokenId := none,
    status := st, companions := 0, guestName := none, guestEmail := none,
    dietaryPreference := none, companionDietaryPreference := none,
    createdAt := now }

/-- RSVP.findOneAndUpdate({eventId, userId}, {eventId, userId, status},
{upsert}): update the first matching document in place, or insert a fresh
one when none matches. -/
def upsertUserRsvp (l : List RSVPRec) (eid uid : Nat) (st : RStatus)
    (newId now : Nat) : List RSVPRec :=
  match l with
  | [] => [freshUserRsvp eid uid st newId now]
  | r :: rs =>
      if r.eventId == eid && r.userId == some uid then
        { r with status := st } :: rs
      else
        r :: upsertUserRsvp rs eid uid st newId now

/-- POST /:eventId: validate status, require an event owned by the caller,
then upsert the (event, user) RSVP.  No capacity check appears anywhere on
this path. -/
def submitUserRsvp (s : Store) (eid uid : Nat) (statusStr : String)
    (newId now : Nat) : UserRsvpResult × Store :=
  match parseUserStatus statusStr with
  | none => (UserRsvpResult.validationError, s)
  | some st =>
    match s.events.find? fun e => e.id == eid && e.createdBy == uid with
    | none => (UserRsvpResult.notFound, s)
    | some _ =>
        (UserRsvpResult.ok st,
         { s with rsvps := upsertUserRsvp s.rsvps eid uid st newId now })

/-! ### ComputeDietaryStatistics (GET /event/:eventId/dietary-stats,
part_000 lines 325-377) -/

/-- The four-bucket counter object. -/
structure DietStats where
  nonveg : Nat
  veg : Nat
  vegan : Nat
  notSpecified : Nat
deriving DecidableEq, Repr

/-- The if/else-if chain crediting one bucket for one preference value
(absent preference credits notSpecified). -/
def bumpDiet (st : DietStats) : Option Diet → DietStats
  | some Diet.nonveg => { st with nonveg := st.nonveg + 1 }
  | some Diet.veg => { st with veg := st.veg + 1 }
  | some Diet.vegan => { st with vegan := st.vegan + 1 }
  | none => { st with notSpecified := st.notSpecified + 1 }

/-- Per-RSVP step of the stats loop: credit the primary preference, and the
companion preference only when companions > 0. -/
def dietStep (st : DietStats) (r : RSVPRec) : DietStats :=
  let st1 := bumpDiet st r.dietaryPreference
  if r.companions > 0 then bumpDiet st1 r.companionDietaryPreference else st1

/-- GET /event/:eventId/dietary-stats: fold dietStep over the going RSVPs
of the event, starting from all-zero counters. -/
def dietaryStats (rsvps : List RSVPRec) (eid : Nat) : DietStats :=
  ((rsvps.filter fun r => r.eventId == eid && r.status == RStatus.going).foldl
    dietStep { nonveg := 0, veg := 0, vegan := 0, notSpecified := 0 })

/-! ### ListInvitees (GET /:eventId, src/src/routes/tokens.ts lines 24-154) -/

/-- Does the candidate list start with the pattern list? -/
def listStarts : List Char → List Char → Bool
  | [], _ => true
  | _ :: _, [] => false
  | a :: as, b :: bs => a == b && listStarts as bs

/-- Does the pattern occur as a contiguous sublist? -/
def listHasSub (n : List Char) : List Char → Bool
  | [] => listStarts n []
  | c :: cs => listStarts n (c :: cs) || listHasSub n cs

/-- Case-insensitive substring test, standing for the $regex / $options i
match on a plain-text search string. -/
def containsCI (needle hay : String) : Bool :=
  listHasSub needle.toLower.toList hay.toLower.toList

/-- The search clause of the token query: an empty search string adds no
$or clause (JS falsiness); otherwise email or name must match.  A regex
match against a missing name field never succeeds. -/
def matchesSearch (search : String) (t : TokenRec) : Bool :=
  search == "" ||
    (containsCI search t.email ||
      match t.name with
      | some n => containsCI search n
      | none => false)

/-- sort({createdAt: -1}) order on tokens: later-created first. -/
def tokGE (a b : TokenRec) : Prop := b.createdAt ≤ a.createdAt

instance : DecidableRel tokGE := fun a b => Nat.decLe b.createdAt a.createdAt

instance : IsTotal TokenRec tokGE :=
  ⟨fun a b => Nat.le_total b.createdAt a.createdAt⟩

instance : IsTrans TokenRec tokGE :=
  ⟨fun _ _ _ h1 h2 => le_trans h2 h1⟩

/-- One row of the invitee list response. -/
structure InviteeEntry where
  id : Nat
  email : String
  name : Option String
  token : String
  createdAt : Nat
  rsvpStatus : Option RStatus
  companions : Nat
deriving DecidableEq, Repr

/-- Resolve the RSVP shown for a token: a token-based RSVP for this event
takes precedence; otherwise fall back to the user-based RSVP of the user
whose account email equals the token email (lines 96-113). -/
def resolveRsvp (s : Store) (eid : Nat) (t : TokenRec) : Option (RStatus × Nat) :=
  match s.rsvps.find? fun r => r.tokenId == some t.id && r.eventId == eid with
  | some r => some (r.status, r.companions)
  | none =>
    match s.users.find? fun u => u.email == t.email with
    | none => none
    | some u =>
      match s.rsvps.find? fun r => r.eventId == eid && r.userId == some u.id with
      | some r => some (r.status, r.companions)
      | none => none

/-- Shape one token into its response row. -/
def mkInviteeEntry (s : Store) (eid : Nat) (t : TokenRec) : InviteeEntry :=
  { id := t.id, email := t.email, name := t.name, token := t.token,
    createdAt := t.createdAt,
    rsvpStatus := (resolveRsvp s eid t).map Prod.fst,
    companions :=
      match resolveRsvp s eid t with
      | some rc => rc.2
      | none => 0 }

/-- Wire string of a status, as compared against the status query param. -/
def statusToStr : RStatus → String
  | RStatus.going => "going"
  | RStatus.maybe => "maybe"
  | RStatus.notGoing => "not-going"

/-- The status filter (lines 127-133): pending keeps rows with no resolved
status; any other value keeps rows whose status string equals it; no
filter keeps everything. -/
def keepByStatusFilter (statusFilter : Option String) (e : InviteeEntry) : Bool :=
  match statusFilter with
  | none => true
  | some f =>
      if f == "pending" then e.rsvpStatus.isNone
      else
        match e.rsvpStatus with
        | some st => statusToStr st == f
        | none => false

/-- The rows for the event after search, sort and status resolution, in
response order, before the status filter and pagination. -/
def tokensWithStatus (s : Store) (eid : Nat) (search : String) : List InviteeEntry :=
  (List.insertionSort tokGE
      (s.tokens.filter fun t => t.eventId == eid && matchesSearch search t)).map
    (mkInviteeEntry s eid)

/-- Outcome of GET /:eventId in the tokens router. -/
inductive ListInviteesResult where
  /-- 404, event absent or not owned by the caller. -/
  | notFound
  /-- 200, one page of rows plus the post-filter total. -/
  | ok (tokens : List InviteeEntry) (total : Nat)
deriving DecidableEq, Repr

/-- GET /:eventId: resolve rows, filter by status, then paginate with
skip = (page - 1) * limit over the filtered list. -/
def listInvitees (s : Store) (eid callerId : Nat) (page limit : Nat)
    (search : String) (statusFilter : Option String) : ListInviteesResult :=
  match s.events.find? fun e => e.id == eid && e.createdBy == callerId with
  | none => ListInviteesResult.notFound
  | some _ =>
      let filtered := (tokensWithStatus s eid search).filter
        (keepByStatusFilter statusFilter)
      let skip := (page - 1) * limit
      ListInviteesResult.ok ((filtered.drop skip).take limit) filtered.length

/-! ### CreateToken (POST /:eventId, src/src/routes/tokens.ts lines 156-311)

The handler creates the Token document first, then — only when the email
service is configured — renders and tries to send the invitation email
inside its own try/catch whose catch merely logs; finally it responds 201
with `emailSent: isEmailServiceConfigured()`.  The dispatch outcome is
modelled by the boolean `emailDispatchOk` (true: sendEmail resolved;
false: sendEmail threw). -/

/-- The JSON response of POST /:eventId (tokens router), plus a flag
recording whether the catch block logged a dispatch failure. -/
structure CreateTokenResponse where
  httpStatus : Nat
  tokenId : Option Nat
  emailSent : Bool
  emailFailureLogged : Bool
deriving DecidableEq, Repr

/-- POST /:eventId (tokens router). `emailFormatOk` is the outcome of the
zod email-format check; `configured` is isEmailServiceConfigured();
`tokenStr` is the generated 256-bit hex secret. -/
def createToken (s : Store) (eid callerId : Nat) (email : String)
    (emailFormatOk : Bool) (name : Option String)
    (configured emailDispatchOk : Bool) (newId : Nat) (tokenStr : String)
    (now : Nat) : CreateTokenResponse × Store :=
  if !emailFormatOk then
    ({ httpStatus := 400, tokenId := none, emailSent := false,
       emailFailureLogged := false }, s)
  else
    match s.events.find? fun e => e.id == eid && e.createdBy == callerId with
    | none =>
        ({ httpStatus := 404, tokenId := none, emailSent := false,
           emailFailureLogged := false }, s)
    | some _ =>
        let tokDoc : TokenRec :=
          { id := newId, eventId := eid, email := email.toLower.trim,
            name := name, token := tokenStr, createdAt := now }
        ({ httpStatus := 201, tokenId := some newId,
           emailSent := configured,
           emailFailureLogged := configured && !emailDispatchOk },
         { s with tokens := s.tokens ++ [tokDoc] })

/-! ### CreateEvent / UpdateEvent (part_001) -/

/-- Raw body of POST / and PUT /:id in the events router.  `capacity` and
`allowedCompanions` are JS numbers, kept as rationals so the zod .int()
check is a real condition; the two format-regex outcomes (ISO datetime
string, email string) are carried as booleans. -/
structure EventInput where
  title : String
  description : Option String
  date : Nat
  dateFormatOk : Bool
  location : String
  category : String
  capacity : Rat
  allowedCompanions : Option Rat
  hostName : String
  hostMobile : String
  hostEmail : String
  hostEmailFormatOk : Bool
deriving DecidableEq, Repr

/-- eventSchema.parse succeeds (part_001 lines 11-22): string lengths in
range, date format ok, capacity an integer of at least 10,
allowedCompanions (when present) an integer in [0, 10], host fields in
range. -/
def eventInputValid (i : EventInput) : Bool :=
  1 ≤ i.title.length && i.title.length ≤ 200 &&
  (match i.description with
   | none => true
   | some d => d.length ≤ 2000) &&
  i.dateFormatOk &&
  1 ≤ i.location.length && i.location.length ≤ 200 &&
  1 ≤ i.category.length &&
  i.capacity.den == 1 && decide ((10 : Rat) ≤ i.capacity) &&
  (match i.allowedCompanions with
   | none => true
   | some a => a.den == 1 && decide ((0 : Rat) ≤ a) && decide (a ≤ (10 : Rat))) &&
  1 ≤ i.hostName.length && i.hostName.length ≤ 100 &&
  1 ≤ i.hostMobile.length && i.hostMobile.length ≤ 20 &&
  i.hostEmailFormatOk && i.hostEmail.length ≤ 100

/-- Outcome of POST / and PUT /:id in the events router. -/
inductive EventResult where
  /-- 400, ZodError from eventSchema.parse. -/
  | validationError
  /-- 400, the event date lies in the past. -/
  | pastDate
  /-- 404 (update only), no event with this id owned by the caller. -/
  | notFound
  /-- Success; echoes the persisted event. -/
  | ok (e : EventRec)
deriving DecidableEq, Repr

/-- The Event document Event.create persists from the validated body. -/
def eventFromInput (i : EventInput) (callerId newId : Nat) : EventRec :=
  { id := newId, title := i.title, description := i.description.getD "",
    date := i.date, location := i.location, category := i.category,
    capacity := i.capacity.num, hostName := i.hostName,
    hostMobile := i.hostMobile, hostEmail := i.hostEmail,
    createdBy := callerId }

/-- POST / (events router): validate, reject past dates, persist. -/
def createEvent (s : Store) (i : EventInput) (callerId newId now : Nat) :
    EventResult × Store :=
  if !(eventInputValid i) then (EventResult.validationError, s)
  else if i.date < now then (EventResult.pastDate, s)
  else
    let e := eventFromInput i callerId newId
    (EventResult.ok e, { s with events := s.events ++ [e] })

/-- The field update findOneAndUpdate applies on PUT /:id (id and owner
are unchanged). -/
def updateEventFields (e : EventRec) (i : EventInput) : EventRec :=
  { e with
    title := i.title, description := i.description.getD "",
    date := i.date, location := i.location, category := i.category,
    capacity := i.capacity.num, hostName := i.hostName,
    hostMobile := i.hostMobile, hostEmail := i.hostEmail }

/-- Event.findOneAndUpdate({_id, createdBy}, fields, {new}): update the
first matching document, returning it; no upsert. -/
def updateFirstEvent (l : List EventRec) (eid uid : Nat) (i : EventInput) :
    Option EventRec × List EventRec :=
  match l with
  | [] => (none, [])
  | e :: es =>
      if e.id == eid && e.createdBy == uid then
        (some (updateEventFields e i), updateEventFields e i :: es)
      else
        let p := updateFirstEvent es eid uid i
        (p.1, e :: p.2)

/-- PUT /:id (events router). -/
def updateEvent (s : Store) (eid : Nat) (i : EventInput) (callerId now : Nat) :
    EventResult × Store :=
  if !(eventInputValid i) then (EventResult.validationError, s)
  else if i.date < now then (EventResult.pastDate, s)
  else
    match updateFirstEvent s.events eid callerId i with
    | (none, _) => (EventResult.notFound, s)
    | (some e, evs) => (EventResult.ok e, { s with events := evs })

/-! ### Concrete sample data, shared by witnesses and counterexamples -/

/-- A sample event: capacity 10, owned by user 7. -/
def evA : EventRec :=
  { id := 1, title := "t", description := "", date := 100, location := "l",
    category := "c", capacity := 10, hostName := "h", hostMobile := "m",
    hostEmail := "e", createdBy := 7 }

/-- A sample invitation token for evA. -/
def tokA : TokenRec :=
  { id := 11, eventId := 1, email := "a@x.com", name := none, token := "tkA",
    createdAt := 5 }

/-- A second sample invitation token for evA. -/
def tokB : TokenRec :=
  { id := 12, eventId := 1, email := "b@x.com", name := none, token := "tkB",
    createdAt := 6 }

/-- A going request body with the given companions count. -/
def goingInput (c : Int) : TokenRsvpInput :=
  { status := "going", companions := some c, guestName := none,
    dietaryPreference := none, companionDietaryPreference := none }

/-- A not-going request body. -/
def notGoingInput : TokenRsvpInput :=
  { status := "not-going", companions := some 2, guestName := none,
    dietaryPreference := none, companionDietaryPreference := none }

/-- Fresh sample store: one event, two tokens, no users, no RSVPs. -/
def storeA : Store := { events := [evA], tokens := [tokA, tokB], users := [], rsvps := [] }

/-- A user-path going RSVP by user 20+k on evA (companions 0). -/
def mkUserGoing (k : Nat) : RSVPRec :=
  { id := 200 + k, eventId := 1, userId := some (20 + k), tokenId := none,
    status := RStatus.going, companions := 0, guestName := none,
    guestEmail := none, dietaryPreference := none,
    companionDietaryPreference := none, createdAt := 9 }

/-- A store already over capacity: 11 user-path going RSVPs against
capacity 10 (the user path performs no capacity check, so this state is
reachable through the API). -/
def storeOver : Store :=
  { events := [evA], tokens := [tokA], users := [],
    rsvps := (List.range 11).map mkUserGoing }

/-- The RSVP document created by a going(4) submission on tkA at id 100,
time 50. -/
def rsvpA : RSVPRec :=
  { id := 100, eventId := 1, userId := none, tokenId := some 11,
    status := RStatus.going, companions := 4, guestName := none,
    guestEmail := some "a@x.com", dietaryPreference := none,
    companionDietaryPreference := none, createdAt := 50 }

/-- The RSVP document created by a not-going submission on tkB at id 100,
time 50. -/
def rsvpB : RSVPRec :=
  { id := 100, eventId := 1, userId := none, tokenId := some 12,
    status := RStatus.notGoing, companions := 2, guestName := none,
    guestEmail := some "b@x.com", dietaryPreference := none,
    companionDietaryPreference := none, createdAt := 50 }

/-- storeA after the going(4) submission on tkA. -/
def storeA1 : Store := { storeA with rsvps := [rsvpA] }

/-- storeA after the not-going submission on tkB. -/
def storeB1 : Store := { storeA with rsvps := [rsvpB] }

/-! ## Theorems -/

/-- C2: for every token that already has an RSVP for its event, a (well
formed) SubmitTokenRSVP call for that token fails with AlreadyResponded at
HTTP 400, returns the existing response status, companions and response
time unchanged, and leaves the whole store — in particular the RSVP
collection — unchanged: no merge, no overwrite. -/
theorem submitTokenRsvp_already_responded
    (s : Store) (tokenStr : String) (i : TokenRsvpInput) (newId now : Nat)
    (v : TokenRsvpValidated) (tok : TokenRec) (ev : EventRec) (ex : RSVPRec)
    (hv : parseTokenRsvp i = some v)
    (htok : s.tokens.find? (fun t => t.token == tokenStr) = some tok)
    (hev : s.events.find? (fun e => e.id == tok.eventId) = some ev)
    (hex : s.rsvps.find?
      (fun r => r.tokenId == some tok.id && r.eventId == tok.eventId) = some ex) :
    submitTokenRsvp s tokenStr i newId now =
      (TokenRsvpResult.alreadyResponded ex.status ex.companions ex.createdAt, s) ∧
    (submitTokenRsvp s tokenStr i newId now).1.httpStatus = 400 := by
  have h : submitTokenRsvp s tokenStr i newId now =
      (TokenRsvpResult.alreadyResponded ex.status ex.companions ex.createdAt, s) := by
    simp only [submitTokenRsvp, hv, htok, hev, hex]
  exact ⟨h, by rw [h]; rfl⟩

/-- Witness for C2: a concrete second submission on tkA. -/
theorem submitTokenRsvp_already_responded_witness :
    submitTokenRsvp (submitTokenRsvp storeA "tkA" (goingInput 4) 100 50).2
        "tkA" (goingInput 0) 101 51 =
      (TokenRsvpResult.alreadyResponded RStatus.going 4 50,
        (submitTokenRsvp storeA "tkA" (goingInput 4) 100 50).2) := by
  have h := submitTokenRsvp_already_responded
    (submitTokenRsvp storeA "tkA" (goingInput 4) 100 50).2 "tkA" (goingInput 0)
    101 51
    { status := RStatus.going, companions := 0, guestName := none,
      dietaryPreference := none, companionDietaryPreference := none }
    tokA evA
    { id := 100, eventId := 1, userId := none, tokenId := some 11,
      status := RStatus.going, companions := 4, guestName := none,
      guestEmail := some "a@x.com", dietaryPreference := none,
      companionDietaryPreference := none, createdAt := 50 }
    (by decide) (by decide) (by decide) (by decide)
  exact h.1

/-! ### C7: token-path validation -/

/-- The token-path validation as claim C7 words it, for refinement
comparison with `parseTokenRsvp`: companions is CLAMPED into [0, 5]
(out-of-range values are pulled to the nearest bound instead of being
rejected); everything else as in tokenRsvpSchema. -/
def parseTokenRsvpClamped (i : TokenRsvpInput) : Option TokenRsvpValidated :=
  match parseTokenStatus i.status, parseOptDiet i.dietaryPreference,
        parseOptDiet i.companionDietaryPreference with
  | some st, some d, some cd =>
      some { status := st,
             companions := (min 5 (max 0 (i.companions.getD 0))).toNat,
             guestName := i.guestName, dietaryPreference := d,
             companionDietaryPreference := cd }
  | _, _, _ => none

/-- A present companions value parses only when it lies in [0, 5], and the
parsed value is at most 5. -/
theorem parseCompanions_le (o : Option Int) (c : Nat)
    (h : parseCompanions o = some c) : c ≤ 5 := by
  unfold parseCompanions at h
  match o with
  | none => simp at h; omega
  | some x =>
      by_cases hx : 0 ≤ x ∧ x ≤ 5
      · simp only [hx, if_pos, and_self, if_true] at h
        cases h
        omega
      · simp only [if_neg hx] at h
        cases h

/-- A parsed token-path status is going or not-going, never maybe. -/
theorem parseTokenStatus_cases (str : String) (st : RStatus)
    (h : parseTokenStatus str = some st) :
    st = RStatus.going ∨ st = RStatus.notGoing := by
  unfold parseTokenStatus at h
  split at h
  · cases h; exact Or.inl rfl
  · split at h
    · cases h; exact Or.inr rfl
    · cases h

/-- Counterexample to C7 as stated: the code does not clamp companions.
A going submission with companions = 6 is rejected by tokenRsvpSchema
(parse yields none, the endpoint answers 400 ValidationError and stores
nothing), whereas the claimed clamping validation would accept it with
companions = 5. -/
theorem tokenRsvp_companions_not_clamped :
    parseTokenRsvp (goingInput 6) = none ∧
    parseTokenRsvpClamped (goingInput 6) =
      some { status := RStatus.going, companions := 5, guestName := none,
             dietaryPreference := none, companionDietaryPreference := none } ∧
    submitTokenRsvp storeA "tkA" (goingInput 6) 100 50 =
      (TokenRsvpResult.validationError, storeA) := by
  refine ⟨by decide, by decide, by decide⟩

/-- C7 amended: companions is validated against [0, 5] — an absent value
defaults to 0, an out-of-range value is rejected (not clamped) — so every
accepted submission has companions ≤ 5; and status is restricted to
{going, not-going}: maybe is never accepted on the token path. -/
theorem tokenRsvpSchema_bounds :
    (∀ i v, parseTokenRsvp i = some v →
      v.companions ≤ 5 ∧
        (v.status = RStatus.going ∨ v.status = RStatus.notGoing) ∧
        v.status ≠ RStatus.maybe) ∧
    (∀ i : TokenRsvpInput, i.status = "maybe" → parseTokenRsvp i = none) ∧
    (∀ i : TokenRsvpInput, ∀ c : Int, i.companions = some c →
      (c < 0 ∨ 5 < c) → parseTokenRsvp i = none) := by
  refine ⟨?_, ?_, ?_⟩
  · intro i v hv
    unfold parseTokenRsvp at hv
    cases hst : parseTokenStatus i.status with
    | none => rw [hst] at hv; cases hv
    | some st =>
      cases hc : parseCompanions i.companions with
      | none => rw [hst, hc] at hv; cases hv
      | some c =>
        cases hd : parseOptDiet i.dietaryPreference with
        | none => rw [hst, hc, hd] at hv; cases hv
        | some d =>
          cases hcd : parseOptDiet i.companionDietaryPreference with
          | none => rw [hst, hc, hd, hcd] at hv; cases hv
          | some cd =>
            rw [hst, hc, hd, hcd] at hv
            cases hv
            refine ⟨parseCompanions_le _ _ hc, parseTokenStatus_cases _ _ hst, ?_⟩
            rcases parseTokenStatus_cases _ _ hst with h | h <;> simp [h]
  · intro i hi
    unfold parseTokenRsvp
    have hst : parseTokenStatus i.status = none := by rw [hi]; decide
    rw [hst]
  · intro i c hic hrange
    unfold parseTokenRsvp
    have hc : parseCompanions i.companions = none := by
      unfold parseCompanions
      rw [hic]
      have : ¬(0 ≤ c ∧ c ≤ 5) := by omega
      simp [this]
    rw [hc]
    cases parseTokenStatus i.status <;> rfl

/-- Witness for the amended C7 at a concrete accepted input. -/
theorem tokenRsvpSchema_bounds_witness :
    (parseTokenRsvp (goingInput 4) =
        some { status := RStatus.going, companions := 4, guestName := none,
               dietaryPreference := none, companionDietaryPreference := none }) ∧
    (4 ≤ 5 ∧
      (RStatus.going = RStatus.going ∨ RStatus.going = RStatus.notGoing) ∧
      RStatus.going ≠ RStatus.maybe) ∧
    parseTokenRsvp { status := "maybe", companions := none,
                     guestName := none, dietaryPreference := none,
                     companionDietaryPreference := none } = none ∧
    parseTokenRsvp (goingInput 7) = none := by
  refine ⟨by decide, ?_, ?_, ?_⟩
  · exact tokenRsvpSchema_bounds.1 (goingInput 4)
      { status := RStatus.going, companions := 4, guestName := none,
        dietaryPreference := none, companionDietaryPreference := none }
      (by decide)
  · exact tokenRsvpSchema_bounds.2.1 _ rfl
  · exact tokenRsvpSchema_bounds.2.2 (goingInput 7) 7 rfl (by omega)

/-! ### C1: capacity check -/

/-- Appending a non-going RSVP never changes currentAttendees. -/
theorem currentAttendees_append_notGoing (l : List RSVPRec) (r : RSVPRec)
    (eid : Nat) (h : r.status ≠ RStatus.going) :
    currentAttendees (l ++ [r]) eid = currentAttendees l eid := by
  unfold currentAttendees
  rw [List.filter_append]
  have hb : (r.status == RStatus.going) = false := beq_eq_false_iff_ne.mpr h
  simp [List.filter_cons, hb]

/-- C1 amended: with status = going, the engine computes currentAttendees
as the sum of (1 + companions) over the existing going RSVPs of the event
and requested = 1 + companions of this submission, and fails with
CapacityExceeded exactly when currentAttendees + requested > capacity; the
failure response reports availableSpots = capacity - currentAttendees
WITHOUT flooring at 0 (it is negative whenever existing going RSVPs
already exceed capacity).  With status = not-going no capacity check is
performed. -/
theorem submitTokenRsvp_capacity_check
    (s : Store) (tokenStr : String) (i : TokenRsvpInput) (newId now : Nat)
    (v : TokenRsvpValidated) (tok : TokenRec) (ev : EventRec)
    (hv : parseTokenRsvp i = some v)
    (htok : s.tokens.find? (fun t => t.token == tokenStr) = some tok)
    (hev : s.events.find? (fun e => e.id == tok.eventId) = some ev)
    (hnoex : s.rsvps.find?
      (fun r => r.tokenId == some tok.id && r.eventId == tok.eventId) = none) :
    (v.status = RStatus.going →
      (((currentAttendees s.rsvps tok.eventId : Int) +
          ((1 + v.companions : Nat) : Int) > ev.capacity) →
        submitTokenRsvp s tokenStr i newId now =
          (TokenRsvpResult.capacityExceeded
            (ev.capacity - (currentAttendees s.rsvps tok.eventId : Int)), s)) ∧
      (¬((currentAttendees s.rsvps tok.eventId : Int) +
          ((1 + v.companions : Nat) : Int) > ev.capacity) →
        (submitTokenRsvp s tokenStr i newId now).1 =
          TokenRsvpResult.created v.status v.companions (1 + v.companions))) ∧
    (v.status = RStatus.notGoing →
      (submitTokenRsvp s tokenStr i newId now).1 =
        TokenRsvpResult.created v.status v.companions 0) := by
  refine ⟨fun hst => ⟨fun hgt => ?_, fun hle => ?_⟩, fun hst => ?_⟩
  · simp only [submitTokenRsvp, hv, htok, hev, hnoex, hst]
    rw [if_pos]
    exact ⟨rfl, by simpa using hgt⟩
  · simp only [submitTokenRsvp, hv, htok, hev, hnoex, hst]
    rw [if_neg]
    · simp
    · intro hand
      apply hle
      simpa using hand.2
  · simp only [submitTokenRsvp, hv, htok, hev, hnoex, hst]
    rw [if_neg]
    · simp
    · intro hand
      simp at hand

/-- Witness for C1 at concrete inputs: a going request for 6 people
against capacity 10 with 5 already admitted is refused with
availableSpots 5; the same request with only the primary attendee is
admitted. -/
theorem submitTokenRsvp_capacity_check_witness :
    (submitTokenRsvp (submitTokenRsvp storeA "tkA" (goingInput 4) 100 50).2
        "tkB" (goingInput 5) 101 51 =
      (TokenRsvpResult.capacityExceeded 5,
        (submitTokenRsvp storeA "tkA" (goingInput 4) 100 50).2)) ∧
    (submitTokenRsvp (submitTokenRsvp storeA "tkA" (goingInput 4) 100 50).2
        "tkB" (goingInput 4) 101 51).1 =
      TokenRsvpResult.created RStatus.going 4 5 := by
  constructor
  · have h := (submitTokenRsvp_capacity_check
      (submitTokenRsvp storeA "tkA" (goingInput 4) 100 50).2 "tkB"
      (goingInput 5) 101 51
      { status := RStatus.going, companions := 5, guestName := none,
        dietaryPreference := none, companionDietaryPreference := none }
      tokB evA (by decide) (by decide) (by decide) (by decide)).1 rfl
    have h2 := h.1 (by decide)
    rw [h2]
    decide
  · have h := (submitTokenRsvp_capacity_check
      (submitTokenRsvp storeA "tkA" (goingInput 4) 100 50).2 "tkB"
      (goingInput 4) 101 51
      { status := RStatus.going, companions := 4, guestName := none,
        dietaryPreference := none, companionDietaryPreference := none }
      tokB evA (by decide) (by decide) (by decide) (by decide)).1 rfl
    exact h.2 (by decide)

/-- Counterexample to the flooring part of C1: in a store already holding
11 going attendees against capacity 10 (reachable, since the user path
performs no capacity check), a going token submission is refused with
availableSpots = -1, while the claimed floored report would be 0. -/
theorem submitTokenRsvp_availableSpots_negative :
    (submitTokenRsvp storeOver "tkA" (goingInput 0) 300 50).1 =
      TokenRsvpResult.capacityExceeded (-1) ∧
    max (evA.capacity - (currentAttendees storeOver.rsvps 1 : Int)) 0 = 0 ∧
    (-1 : Int) ≠ 0 := by
  refine ⟨by decide, by decide, by decide⟩

/-! ### C6: returned total attendee count -/

/-- C6: every successful SubmitTokenRSVP returns
totalAttendees = 1 + companions for going and 0 for not-going; a
not-going submission is never refused for capacity (whatever its
companions value) and leaves every currentAttendees sum unchanged, so it
never contributes to capacity accounting. -/
theorem submitTokenRsvp_totalAttendees :
    (∀ (s : Store) (tokenStr : String) (i : TokenRsvpInput) (newId now : Nat)
        (st : RStatus) (c tot : Nat) (s2 : Store),
      submitTokenRsvp s tokenStr i newId now =
        (TokenRsvpResult.created st c tot, s2) →
      tot = if st = RStatus.going then 1 + c else 0) ∧
    (∀ (s : Store) (tokenStr : String) (i : TokenRsvpInput) (newId now : Nat)
        (st : RStatus) (c tot : Nat) (s2 : Store),
      submitTokenRsvp s tokenStr i newId now =
        (TokenRsvpResult.created st c tot, s2) →
      st = RStatus.notGoing →
      ∀ eid, currentAttendees s2.rsvps eid = currentAttendees s.rsvps eid) ∧
    (∀ (s : Store) (tokenStr : String) (i : TokenRsvpInput) (newId now : Nat)
        (v : TokenRsvpValidated),
      parseTokenRsvp i = some v → v.status = RStatus.notGoing →
      ∀ a : Int, (submitTokenRsvp s tokenStr i newId now).1 ≠
        TokenRsvpResult.capacityExceeded a) := by
  refine ⟨?_, ?_, ?_⟩
  · intro s tokenStr i newId now st c tot s2 h
    simp only [submitTokenRsvp] at h
    repeat' split at h
    all_goals simp_all
    obtain ⟨⟨h1, h2, h3⟩, -⟩ := h
    omega
  · intro s tokenStr i newId now st c tot s2 h hng
    simp only [submitTokenRsvp] at h
    repeat' split at h
    all_goals simp_all
    obtain ⟨⟨h1, h2, h3⟩, h4⟩ := h
    subst h4
    intro eid
    apply currentAttendees_append_notGoing
    simp [h1]
  · intro s tokenStr i newId now v hv hng a hcap
    unfold submitTokenRsvp at hcap
    repeat' split at hcap
    all_goals simp_all

/-- Witness for C6 at concrete inputs: the going(4) submission returns
totalAttendees 5; the not-going submission returns totalAttendees 0,
leaves currentAttendees unchanged and is never refused for capacity. -/
theorem submitTokenRsvp_totalAttendees_witness :
    (5 = if RStatus.going = RStatus.going then 1 + 4 else 0) ∧
    currentAttendees storeB1.rsvps 1 = currentAttendees storeA.rsvps 1 ∧
    (submitTokenRsvp storeA "tkB" notGoingInput 100 50).1 ≠
      TokenRsvpResult.capacityExceeded 0 := by
  refine ⟨?_, ?_, ?_⟩
  · exact submitTokenRsvp_totalAttendees.1 storeA "tkA" (goingInput 4) 100 50
      RStatus.going 4 5 storeA1 (by decide)
  · exact submitTokenRsvp_totalAttendees.2.1 storeA "tkB" notGoingInput 100 50
      RStatus.notGoing 2 0 storeB1 (by decide) rfl 1
  · exact submitTokenRsvp_totalAttendees.2.2 storeA "tkB" notGoingInput 100 50
      { status := RStatus.notGoing, companions := 2, guestName := none,
        dietaryPreference := none, companionDietaryPreference := none }
      (by decide) rfl 0

/-! ### C3: exactly one identity field -/

/-- Exactly one of userId / tokenId is set. -/
def identityOk (r : RSVPRec) : Bool :=
  r.userId.isSome != r.tokenId.isSome

/-- The user-path upsert preserves the identity invariant: an in-place
status update keeps both identity fields, and the inserted fresh document
carries a userId and no tokenId. -/
theorem upsertUserRsvp_identityOk (l : List RSVPRec) (eid uid : Nat)
    (st : RStatus) (newId now : Nat)
    (hall : ∀ r ∈ l, identityOk r = true) :
    ∀ r ∈ upsertUserRsvp l eid uid st newId now, identityOk r = true := by
  induction l with
  | nil =>
      intro r hr
      simp only [upsertUserRsvp, List.mem_singleton] at hr
      subst hr
      rfl
  | cons x xs ih =>
      intro r hr
      simp only [upsertUserRsvp] at hr
      by_cases hx : (x.eventId == eid && x.userId == some uid) = true
      · rw [if_pos hx] at hr
        rcases List.mem_cons.mp hr with h | h
        · subst h
          exact hall x (List.mem_cons_self x xs)
        · exact hall r (List.mem_cons_of_mem x h)
      · rw [if_neg hx] at hr
        rcases List.mem_cons.mp hr with h | h
        · subst h
          exact hall r (List.mem_cons_self r xs)
        · exact ih (fun y hy => hall y (List.mem_cons_of_mem x hy)) r h

/-- C3: both RSVP-creating operations preserve the invariant that every
stored RSVP has exactly one identity field set — the token path inserts
tokenId and no userId, the user path upsert inserts userId and no tokenId
and never touches identity fields on update. -/
theorem rsvp_identity_invariant (s : Store)
    (hall : ∀ r ∈ s.rsvps, identityOk r = true) :
    (∀ (tokenStr : String) (i : TokenRsvpInput) (newId now : Nat),
      ∀ r ∈ ((submitTokenRsvp s tokenStr i newId now).2).rsvps,
        identityOk r = true) ∧
    (∀ (eid uid : Nat) (statusStr : String) (newId now : Nat),
      ∀ r ∈ ((submitUserRsvp s eid uid statusStr newId now).2).rsvps,
        identityOk r = true) := by
  constructor
  · intro tokenStr i newId now
    simp only [submitTokenRsvp]
    repeat' split
    all_goals intro r hr
    all_goals try exact hall r hr
    all_goals refine (List.mem_append.mp hr).elim (fun h => hall r h) fun h => ?_
    all_goals rw [List.mem_singleton] at h
    all_goals subst h
    all_goals rfl
  · intro eid uid statusStr newId now
    simp only [submitUserRsvp]
    repeat' split
    all_goals intro r hr
    all_goals try exact hall r hr
    exact upsertUserRsvp_identityOk s.rsvps eid uid _ newId now hall r hr

/-- Witness for C3: both freshly created concrete RSVPs satisfy the
invariant, starting from the empty-RSVP store. -/
theorem rsvp_identity_invariant_witness :
    identityOk rsvpA = true ∧
    identityOk (freshUserRsvp 1 7 RStatus.going 100 50) = true := by
  constructor
  · exact (rsvp_identity_invariant storeA (by decide)).1 "tkA" (goingInput 4)
      100 50 rsvpA (by decide)
  · exact (rsvp_identity_invariant storeA (by decide)).2 1 7 "going"
      100 50 (freshUserRsvp 1 7 RStatus.going 100 50) (by decide)

/-! ### C4: user-path replace-or-create upsert -/

/-- After an upsert, the (event, user) slot holds exactly one RSVP and its
status is the just-submitted one — provided the slot held at most one RSVP
before (the storage-layer unique index guarantees this). -/
theorem upsertUserRsvp_filter (eid uid : Nat) (st : RStatus) (newId now : Nat) :
    ∀ l : List RSVPRec,
      (l.filter fun r => r.eventId == eid && r.userId == some uid).length ≤ 1 →
      ∃ r0, (upsertUserRsvp l eid uid st newId now).filter
          (fun r => r.eventId == eid && r.userId == some uid) = [r0] ∧
        r0.status = st ∧ r0.eventId = eid ∧ r0.userId = some uid := by
  intro l
  induction l with
  | nil =>
      intro _
      refine ⟨freshUserRsvp eid uid st newId now, ?_, rfl, rfl, rfl⟩
      simp [upsertUserRsvp, List.filter_cons, freshUserRsvp]
  | cons x xs ih =>
      intro hlen
      by_cases hx : (x.eventId == eid && x.userId == some uid) = true
      · have hxs : xs.filter (fun r => r.eventId == eid && r.userId == some uid)
            = [] := by
          rw [List.filter_cons, if_pos hx] at hlen
          simp only [List.length_cons] at hlen
          exact List.length_eq_zero.mp (by omega)
        refine ⟨{ x with status := st }, ?_, rfl, ?_, ?_⟩
        · simp only [upsertUserRsvp, if_pos hx, List.filter_cons]
          rw [hxs]
        · simpa using (Bool.and_eq_true _ _ |>.mp hx).1
        · simpa using (Bool.and_eq_true _ _ |>.mp hx).2
      · have hlen2 : (xs.filter fun r =>
            r.eventId == eid && r.userId == some uid).length ≤ 1 := by
          rw [List.filter_cons, if_neg hx] at hlen
          exact hlen
        obtain ⟨r0, hf, hst, hid, huid⟩ := ih hlen2
        refine ⟨r0, ?_, hst, hid, huid⟩
        simp only [upsertUserRsvp, if_neg hx, List.filter_cons]
        exact hf

/-- C4: SubmitUserRSVP is a replace-or-create upsert keyed on
(event, user): starting from any store whose (event, user) slot obeys the
uniqueness index (at most one RSVP), two submissions by the same user for
the same existing event with different statuses leave the second call
succeeding, exactly one RSVP in the slot, and its status equal to the last
submitted status.  No hypothesis about capacity or other RSVPs is needed:
this path performs no capacity check. -/
theorem submitUserRsvp_upsert
    (s : Store) (eid uid : Nat) (st1 st2 : String) (v1 v2 : RStatus)
    (n1 t1 n2 t2 : Nat) (ev : EventRec)
    (h1 : parseUserStatus st1 = some v1)
    (h2 : parseUserStatus st2 = some v2)
    (_hne : v1 ≠ v2)
    (hev : s.events.find? (fun e => e.id == eid && e.createdBy == uid) = some ev)
    (hcount : (s.rsvps.filter fun r =>
        r.eventId == eid && r.userId == some uid).length ≤ 1) :
    (submitUserRsvp (submitUserRsvp s eid uid st1 n1 t1).2
        eid uid st2 n2 t2).1 = UserRsvpResult.ok v2 ∧
    ∃ r0, ((submitUserRsvp (submitUserRsvp s eid uid st1 n1 t1).2
        eid uid st2 n2 t2).2.rsvps.filter
          (fun r => r.eventId == eid && r.userId == some uid)) = [r0] ∧
      r0.status = v2 := by
  have e1 : (submitUserRsvp s eid uid st1 n1 t1).2 =
      { s with rsvps := upsertUserRsvp s.rsvps eid uid v1 n1 t1 } := by
    simp only [submitUserRsvp, h1, hev]
  have hev2 : ({ s with rsvps := upsertUserRsvp s.rsvps eid uid v1 n1 t1 } :
      Store).events.find? (fun e => e.id == eid && e.createdBy == uid) = some ev :=
    hev
  have e2 : submitUserRsvp
      { s with rsvps := upsertUserRsvp s.rsvps eid uid v1 n1 t1 }
      eid uid st2 n2 t2 =
      (UserRsvpResult.ok v2,
        { s with rsvps := upsertUserRsvp (upsertUserRsvp s.rsvps eid uid v1 n1 t1)
                            eid uid v2 n2 t2 }) := by
    simp only [submitUserRsvp, h2, hev2]
  rw [e1, e2]
  refine ⟨rfl, ?_⟩
  obtain ⟨r1, hf1, _, _, _⟩ :=
    upsertUserRsvp_filter eid uid v1 n1 t1 s.rsvps hcount
  have hcount1 : ((upsertUserRsvp s.rsvps eid uid v1 n1 t1).filter fun r =>
      r.eventId == eid && r.userId == some uid).length ≤ 1 := by
    rw [hf1]
    exact Nat.le_refl 1
  obtain ⟨r0, hf0, hst0, _, _⟩ :=
    upsertUserRsvp_filter eid uid v2 n2 t2 _ hcount1
  exact ⟨r0, hf0, hst0⟩

/-- Witness for C4 at concrete inputs: going then maybe by user 7 on
event 1. -/
theorem submitUserRsvp_upsert_witness :
    (submitUserRsvp (submitUserRsvp storeA 1 7 "going" 100 50).2
        1 7 "maybe" 101 51).1 = UserRsvpResult.ok RStatus.maybe ∧
    ((submitUserRsvp (submitUserRsvp storeA 1 7 "going" 100 50).2
        1 7 "maybe" 101 51).2.rsvps.filter
          (fun r => r.eventId == 1 && r.userId == some 7)) =
      [{ id := 100, eventId := 1, userId := some 7, tokenId := none,
         status := RStatus.maybe, companions := 0, guestName := none,
         guestEmail := none, dietaryPreference := none,
         companionDietaryPreference := none, createdAt := 50 }] := by
  constructor
  · exact (submitUserRsvp_upsert storeA 1 7 "going" "maybe"
      RStatus.going RStatus.maybe 100 50 101 51 evA rfl rfl (by decide)
      (by decide) (by decide)).1
  · decide

/-! ### C5: dietary statistics -/

/-- The bucket a preference value credits: absent credits notSpecified. -/
def statOf (st : DietStats) : Option Diet → Nat
  | some Diet.nonveg => st.nonveg
  | some Diet.veg => st.veg
  | some Diet.vegan => st.vegan
  | none => st.notSpecified

/-- Sum of the four buckets. -/
def DietStats.total (z : DietStats) : Nat :=
  z.nonveg + z.veg + z.vegan + z.notSpecified

theorem statOf_bumpDiet (z : DietStats) (p d : Option Diet) :
    statOf (bumpDiet z p) d = statOf z d + (if p = d then 1 else 0) := by
  rcases p with _ | p
  · rcases d with _ | d
    · simp [bumpDiet, statOf]
    · cases d <;> simp [bumpDiet, statOf]
  · rcases d with _ | d
    · cases p <;> simp [bumpDiet, statOf]
    · cases p <;> cases d <;> simp [bumpDiet, statOf]

theorem total_bumpDiet (z : DietStats) (p : Option Diet) :
    (bumpDiet z p).total = z.total + 1 := by
  rcases p with _ | p
  · simp [bumpDiet, DietStats.total]
    omega
  · cases p <;> simp [bumpDiet, DietStats.total] <;> omega

theorem statOf_dietStep (z : DietStats) (r : RSVPRec) (d : Option Diet) :
    statOf (dietStep z r) d = statOf z d +
      (if r.dietaryPreference = d then 1 else 0) +
      (if 0 < r.companions ∧ r.companionDietaryPreference = d then 1 else 0) := by
  unfold dietStep
  by_cases hc : 0 < r.companions
  · rw [if_pos hc, statOf_bumpDiet, statOf_bumpDiet]
    simp [hc]
  · rw [if_neg hc, statOf_bumpDiet]
    simp [hc]

theorem total_dietStep (z : DietStats) (r : RSVPRec) :
    (dietStep z r).total = z.total + 1 + (if 0 < r.companions then 1 else 0) := by
  unfold dietStep
  by_cases hc : 0 < r.companions
  · rw [if_pos hc, total_bumpDiet, total_bumpDiet]
    simp [hc]
  · rw [if_neg hc, total_bumpDiet]
    simp [hc]

theorem statOf_foldl (d : Option Diet) :
    ∀ (l : List RSVPRec) (z : DietStats),
      statOf (l.foldl dietStep z) d = statOf z d +
        l.countP (fun r => r.dietaryPreference == d) +
        l.countP (fun r => decide (0 < r.companions) &&
          (r.companionDietaryPreference == d)) := by
  intro l
  induction l with
  | nil => intro z; simp
  | cons x xs ih =>
      intro z
      simp only [List.foldl_cons, List.countP_cons, ih, statOf_dietStep]
      by_cases h1 : x.dietaryPreference = d <;>
        by_cases h2 : 0 < x.companions <;>
          by_cases h3 : x.companionDietaryPreference = d <;>
            simp [h1, h2, h3] <;> omega

theorem total_foldl :
    ∀ (l : List RSVPRec) (z : DietStats),
      (l.foldl dietStep z).total = z.total + l.length +
        l.countP (fun r => decide (0 < r.companions)) := by
  intro l
  induction l with
  | nil => intro z; simp
  | cons x xs ih =>
      intro z
      simp only [List.foldl_cons, List.countP_cons, List.length_cons, ih,
        total_dietStep]
      by_cases h2 : 0 < x.companions <;> simp [h2] <;> omega

/-- C5: dietary statistics scan exactly the going RSVPs of the event.
Per bucket: each going RSVP credits the bucket of its primary preference
(notSpecified when absent), and additionally the bucket of its companion
preference iff companions > 0 (notSpecified when that field is absent).
Consequently the four buckets sum to (number of going RSVPs) + (number of
going RSVPs with companions > 0). -/
theorem dietaryStats_correct (rsvps : List RSVPRec) (eid : Nat) :
    (∀ d : Option Diet,
      statOf (dietaryStats rsvps eid) d =
        ((rsvps.filter fun r => r.eventId == eid && r.status == RStatus.going).countP
          fun r => r.dietaryPreference == d) +
        ((rsvps.filter fun r => r.eventId == eid && r.status == RStatus.going).countP
          fun r => decide (0 < r.companions) &&
            (r.companionDietaryPreference == d))) ∧
    (dietaryStats rsvps eid).nonveg + (dietaryStats rsvps eid).veg +
      (dietaryStats rsvps eid).vegan + (dietaryStats rsvps eid).notSpecified =
    (rsvps.filter fun r => r.eventId == eid && r.status == RStatus.going).length +
      ((rsvps.filter fun r => r.eventId == eid && r.status == RStatus.going).filter
        fun r => decide (0 < r.companions)).length := by
  constructor
  · intro d
    unfold dietaryStats
    rw [statOf_foldl]
    rcases d with _ | d
    · simp [statOf]
    · cases d <;> simp [statOf]
  · have h := total_foldl
      (rsvps.filter fun r => r.eventId == eid && r.status == RStatus.going)
      { nonveg := 0, veg := 0, vegan := 0, notSpecified := 0 }
    unfold dietaryStats
    unfold DietStats.total at h
    rw [h, List.countP_eq_length_filter]
    simp

/-! ### C9: email dispatch failure does not roll back token creation -/

/-- C9 amended: when the event exists and the body validates, CreateToken
always answers 201 with the created token appended to the store —
regardless of the email-dispatch outcome, which is only logged.  The
emailSent flag of the response equals isEmailServiceConfigured(), NOT the
dispatch outcome. -/
theorem createToken_email_decoupled
    (s : Store) (eid callerId : Nat) (email : String) (name : Option String)
    (configured emailDispatchOk : Bool) (newId : Nat) (tokenStr : String)
    (now : Nat) (ev : EventRec)
    (hev : s.events.find? (fun e => e.id == eid && e.createdBy == callerId) =
      some ev) :
    (createToken s eid callerId email true name configured emailDispatchOk
        newId tokenStr now).1.httpStatus = 201 ∧
    (createToken s eid callerId email true name configured emailDispatchOk
        newId tokenStr now).1.tokenId = some newId ∧
    (createToken s eid callerId email true name configured emailDispatchOk
        newId tokenStr now).2.tokens =
      s.tokens ++ [{ id := newId, eventId := eid, email := email.toLower.trim,
                     name := name, token := tokenStr, createdAt := now }] ∧
    (createToken s eid callerId email true name configured emailDispatchOk
        newId tokenStr now).1.emailSent = configured ∧
    (configured = true → emailDispatchOk = false →
      (createToken s eid callerId email true name configured emailDispatchOk
          newId tokenStr now).1.emailFailureLogged = true) := by
  have hred : createToken s eid callerId email true name configured
      emailDispatchOk newId tokenStr now =
      ({ httpStatus := 201, tokenId := some newId, emailSent := configured,
         emailFailureLogged := configured && !emailDispatchOk },
       { s with tokens := s.tokens ++
           [{ id := newId, eventId := eid, email := email.toLower.trim,
              name := name, token := tokenStr, createdAt := now }] }) := by
    simp [createToken, hev]
  rw [hred]
  refine ⟨rfl, rfl, rfl, rfl, fun h1 h2 => ?_⟩
  simp [h1, h2]

/-- Witness for the amended C9: dispatch fails (emailDispatchOk = false)
yet the response is 201 and the token is persisted. -/
theorem createToken_email_decoupled_witness :
    (createToken storeA 1 7 "c@x.com" true none true false 20 "tkC" 60).1.httpStatus
      = 201 ∧
    (createToken storeA 1 7 "c@x.com" true none true false 20 "tkC" 60).1.emailFailureLogged
      = true ∧
    (createToken storeA 1 7 "c@x.com" true none true false 20 "tkC" 60).2.tokens =
      storeA.tokens ++ [{ id := 20, eventId := 1, email := "c@x.com".toLower.trim,
                          name := none, token := "tkC", createdAt := 60 }] := by
  have h := createToken_email_decoupled storeA 1 7 "c@x.com" none true false 20
    "tkC" 60 evA (by decide)
  exact ⟨h.1, h.2.2.2.2 rfl rfl, h.2.2.1⟩

/-- Counterexample to C9 as stated: with the email service configured and
the dispatch failing, the response still carries emailSent = true — the
handler reports isEmailServiceConfigured(), not the dispatch outcome, so
the failure is NOT surfaced as emailSent: false. -/
theorem createToken_emailSent_ignores_dispatch :
    (createToken storeA 1 7 "c@x.com" true none true false 20 "tkC" 60).1.emailSent
      = true ∧
    (createToken storeA 1 7 "c@x.com" true none true false 20 "tkC" 60).1.emailFailureLogged
      = true ∧
    true ≠ false := by
  refine ⟨by decide, by decide, by decide⟩

/-! ### C10: capacity must be an integer of at least 10 -/

/-- A rational with denominator 1 that is at least 10 has numerator at
least 10. -/
theorem cap_num_ge (q : Rat) (hden : q.den = 1) (h10 : (10 : Rat) ≤ q) :
    (10 : Int) ≤ q.num := by
  rw [← Rat.coe_int_num_of_den_eq_one hden] at h10
  exact_mod_cast h10

/-- Every event surviving in the list returned by updateFirstEvent is
either an original or a field-update of an original. -/
theorem updateFirstEvent_mem :
    ∀ (l : List EventRec) (eid uid : Nat) (i : EventInput) (e : EventRec),
      e ∈ (updateFirstEvent l eid uid i).2 →
      e ∈ l ∨ ∃ e0, e = updateEventFields e0 i := by
  intro l
  induction l with
  | nil => intro eid uid i e he; simp [updateFirstEvent] at he
  | cons x xs ih =>
      intro eid uid i e he
      simp only [updateFirstEvent] at he
      by_cases hx : (x.id == eid && x.createdBy == uid) = true
      · rw [if_pos hx] at he
        rcases List.mem_cons.mp he with h | h
        · exact Or.inr ⟨x, h⟩
        · exact Or.inl (List.mem_cons_of_mem x h)
      · rw [if_neg hx] at he
        rcases List.mem_cons.mp he with h | h
        · exact Or.inl (h ▸ List.mem_cons_self x xs)
        · rcases ih eid uid i e h with h2 | h2
          · exact Or.inl (List.mem_cons_of_mem x h2)
          · exact Or.inr h2

/-- C10: eventSchema accepts only capacities that are integers of at
least 10; CreateEvent and UpdateEvent reject any other capacity with a
ValidationError, so every event they persist has capacity ≥ 10 — strictly
stronger than the Mongoose model bound capacity ≥ 1, which also follows. -/
theorem eventSchema_capacity_min10 :
    (∀ i : EventInput, eventInputValid i = true →
      i.capacity.den = 1 ∧ (10 : Rat) ≤ i.capacity) ∧
    (∀ (s : Store) (i : EventInput) (callerId newId now : Nat),
      ¬(i.capacity.den = 1 ∧ (10 : Rat) ≤ i.capacity) →
      (createEvent s i callerId newId now).1 = EventResult.validationError ∧
      ∀ eid, (updateEvent s eid i callerId now).1 = EventResult.validationError) ∧
    (∀ (s : Store) (i : EventInput) (callerId newId now : Nat),
      ∀ e ∈ ((createEvent s i callerId newId now).2).events,
        e ∈ s.events ∨ ((10 : Int) ≤ e.capacity ∧ (1 : Int) ≤ e.capacity)) ∧
    (∀ (s : Store) (eid : Nat) (i : EventInput) (callerId now : Nat),
      ∀ e ∈ ((updateEvent s eid i callerId now).2).events,
        e ∈ s.events ∨ ((10 : Int) ≤ e.capacity ∧ (1 : Int) ≤ e.capacity)) := by
  have hvalid : ∀ i : EventInput, eventInputValid i = true →
      i.capacity.den = 1 ∧ (10 : Rat) ≤ i.capacity := by
    intro i h
    simp only [eventInputValid, Bool.and_eq_true, beq_iff_eq,
      decide_eq_true_eq] at h
    refine ⟨?_, ?_⟩ <;> tauto
  have hreject : ∀ i : EventInput,
      ¬(i.capacity.den = 1 ∧ (10 : Rat) ≤ i.capacity) →
      eventInputValid i = false := by
    intro i hbad
    cases hv : eventInputValid i
    · rfl
    · exact absurd (hvalid i hv) hbad
  refine ⟨hvalid, ?_, ?_, ?_⟩
  · intro s i callerId newId now hbad
    have hf := hreject i hbad
    constructor
    · simp [createEvent, hf]
    · intro eid
      simp [updateEvent, hf]
  · intro s i callerId newId now e he
    by_cases hv : eventInputValid i = true
    · simp only [createEvent, hv, Bool.not_true, Bool.false_eq_true, if_false] at he
      by_cases hd : i.date < now
      · rw [if_pos hd] at he
        exact Or.inl he
      · rw [if_neg hd] at he
        rcases List.mem_append.mp he with h | h
        · exact Or.inl h
        · rw [List.mem_singleton] at h
          subst h
          have h10 := cap_num_ge i.capacity (hvalid i hv).1 (hvalid i hv).2
          refine Or.inr ?_
          have hc : (eventFromInput i callerId newId).capacity = i.capacity.num := rfl
          rw [hc]
          omega
    · have hf : eventInputValid i = false := by
        cases hv2 : eventInputValid i
        · rfl
        · exact absurd hv2 hv
      simp only [createEvent, hf] at he
      exact Or.inl he
  · intro s eid i callerId now e he
    by_cases hv : eventInputValid i = true
    · simp only [updateEvent, hv, Bool.not_true, Bool.false_eq_true, if_false] at he
      by_cases hd : i.date < now
      · rw [if_pos hd] at he
        exact Or.inl he
      · rw [if_neg hd] at he
        rcases hu : updateFirstEvent s.events eid callerId i with ⟨o, evs⟩
        rw [hu] at he
        cases o with
        | none => exact Or.inl he
        | some e2 =>
            have he2 : e ∈ (updateFirstEvent s.events eid callerId i).2 := by
              rw [hu]
              exact he
            rcases updateFirstEvent_mem s.events eid callerId i e he2 with h | ⟨e0, h⟩
            · exact Or.inl h
            · subst h
              have h10 := cap_num_ge i.capacity (hvalid i hv).1 (hvalid i hv).2
              refine Or.inr ?_
              have hc : (updateEventFields e0 i).capacity = i.capacity.num := rfl
              rw [hc]
              omega
    · have hf : eventInputValid i = false := by
        cases hv2 : eventInputValid i
        · rfl
        · exact absurd hv2 hv
      simp only [updateEvent, hf] at he
      exact Or.inl he

/-- A well-formed event body with capacity 12. -/
def eventInputA : EventInput :=
  { title := "T", description := none, date := 200, dateFormatOk := true,
    location := "L", category := "C", capacity := 12,
    allowedCompanions := none, hostName := "H", hostMobile := "M",
    hostEmail := "E", hostEmailFormatOk := true }

/-- The same body with capacity 5: rejected. -/
def eventInputBad : EventInput := { eventInputA with capacity := 5 }

/-- Witness for C10 at concrete inputs: capacity 12 passes validation and
is an integer of at least 10; capacity 5 draws a ValidationError from
CreateEvent. -/
theorem eventSchema_capacity_min10_witness :
    (eventInputA.capacity.den = 1 ∧ (10 : Rat) ≤ eventInputA.capacity) ∧
    (createEvent storeA eventInputBad 7 2 100).1 = EventResult.validationError := by
  constructor
  · exact eventSchema_capacity_min10.1 eventInputA (by decide)
  · exact ((eventSchema_capacity_min10.2.1 storeA eventInputBad 7 2 100)
      (by intro hand; norm_num [eventInputBad, eventInputA] at hand)).1

/-! ### C8: invitee listing with the pending filter -/

/-- The pending rows of the invitee list, before pagination: the resolved
rows in response order, restricted by the synthetic pending filter. -/
def pendingRows (s : Store) (eid : Nat) : List InviteeEntry :=
  (tokensWithStatus s eid "").filter (keepByStatusFilter (some "pending"))

/-- C8: ListInvitees with statusFilter = pending pages over exactly the
rows of the event tokens that have no resolved RSVP — neither a
token-based RSVP nor a user-based RSVP matched via the token email; a
token-based RSVP takes precedence in resolution; rows are ordered by token
creation time descending (the order is established before the filter), and
pagination with skip = (page - 1) * limit is applied to the filtered
rows. -/
theorem listInvitees_pending
    (s : Store) (eid callerId page limit : Nat) (ev : EventRec)
    (hev : s.events.find? (fun e => e.id == eid && e.createdBy == callerId) =
      some ev) :
    listInvitees s eid callerId page limit "" (some "pending") =
      ListInviteesResult.ok
        (((pendingRows s eid).drop ((page - 1) * limit)).take limit)
        (pendingRows s eid).length ∧
    (∀ e, e ∈ pendingRows s eid ↔ ∃ t, t ∈ s.tokens ∧ t.eventId = eid ∧
      resolveRsvp s eid t = none ∧ e = mkInviteeEntry s eid t) ∧
    (pendingRows s eid).Pairwise (fun a b => b.createdAt ≤ a.createdAt) ∧
    (∀ (t : TokenRec) (r : RSVPRec),
      s.rsvps.find? (fun x => x.tokenId == some t.id && x.eventId == eid) =
        some r →
      resolveRsvp s eid t = some (r.status, r.companions)) := by
  refine ⟨?_, ?_, ?_, ?_⟩
  · simp only [listInvitees, hev, pendingRows]
  · intro e
    simp only [pendingRows, tokensWithStatus, List.mem_filter, List.mem_map]
    constructor
    · rintro ⟨⟨t, ht, rfl⟩, hkeep⟩
      have ht2 : t ∈ List.filter
          (fun t => t.eventId == eid && matchesSearch "" t) s.tokens :=
        (List.perm_insertionSort tokGE _).mem_iff.mp ht
      have hm := List.mem_filter.mp ht2
      have heid : t.eventId = eid := by
        have hb := hm.2
        simp only [Bool.and_eq_true, beq_iff_eq] at hb
        exact hb.1
      refine ⟨t, hm.1, heid, ?_, rfl⟩
      simp only [keepByStatusFilter, beq_self_eq_true, if_true,
        mkInviteeEntry] at hkeep
      cases hres : resolveRsvp s eid t with
      | none => rfl
      | some rc => rw [hres] at hkeep; simp at hkeep
    · rintro ⟨t, ht, heid, hres, rfl⟩
      refine ⟨⟨t, ?_, rfl⟩, ?_⟩
      · refine (List.perm_insertionSort tokGE _).mem_iff.mpr ?_
        refine List.mem_filter.mpr ⟨ht, ?_⟩
        simp [matchesSearch, heid]
      · simp [keepByStatusFilter, mkInviteeEntry, hres]
  · refine List.Pairwise.filter _ ?_
    refine List.Pairwise.map _ (fun a b h => h) ?_
    exact List.sorted_insertionSort tokGE _
  · intro t r h
    simp [resolveRsvp, h]

/-- A third sample token for evA, latest-created, with no RSVP at all. -/
def tokC : TokenRec :=
  { id := 13, eventId := 1, email := "c@x.com", name := none, token := "tkC",
    createdAt := 7 }

/-- A user whose account email matches tokB. -/
def userB : UserRec := { id := 30, email := "b@x.com" }

/-- A user-path RSVP by userB on evA. -/
def rsvpUserB : RSVPRec :=
  { id := 201, eventId := 1, userId := some 30, tokenId := none,
    status := RStatus.maybe, companions := 0, guestName := none,
    guestEmail := none, dietaryPreference := none,
    companionDietaryPreference := none, createdAt := 8 }

/-- Store for the listing scenario: tokA has a token RSVP, tokB resolves
through the user-path RSVP of userB, tokC is pending. -/
def storeC : Store :=
  { events := [evA], tokens := [tokA, tokB, tokC], users := [userB],
    rsvps := [rsvpA, rsvpUserB] }

/-- Witness for C8: on storeC, exactly tokC is pending. -/
theorem listInvitees_pending_witness :
    listInvitees storeC 1 7 1 10 "" (some "pending") =
      ListInviteesResult.ok
        (((pendingRows storeC 1).drop ((1 - 1) * 10)).take 10)
        (pendingRows storeC 1).length ∧
    pendingRows storeC 1 = [mkInviteeEntry storeC 1 tokC] ∧
    (mkInviteeEntry storeC 1 tokC).rsvpStatus = none := by
  refine ⟨(listInvitees_pending storeC 1 7 1 10 evA (by decide)).1, ?_, ?_⟩
  · decide
  · decide

end Planorama
